import Mathlib

/-!
Verification of the msa-saga-go-practical repository: a shallow embedding of
the SAGA services (Order, Payment, Inventory, Delivery), their repositories
and relays, with theorems settling the specification claims.

Conventions of the embedding:
* DB integer columns are modelled as `Int` (no claim here depends on 64-bit
  overflow).
* A SQL table is a `List` of row structures; `find?` models a point query.
* Go functions that touch the database are translated statement by statement;
  a write issued on the raw connection (`r.db` in Go) commits immediately,
  while a write issued on an open transaction (`tx`) is buffered and takes
  effect only at `tx.Commit()`; an early error return triggers the deferred
  `tx.Rollback()`, which discards the buffer.
* Fallible steps return `Except`; injected `Bool` parameters model the
  failure points the Go code checks (gateway decline, a failing insert).
-/

namespace Saga

/-- Order status enumeration, from services/order/internal/domain
(OrderStatus constants). -/
inductive OrderStatus
  | PENDING
  | PAYMENT_PROCESSING
  | STOCK_RESERVING
  | DELIVERY_PREPARING
  | COMPLETED
  | CANCELED
  | FAILED
  deriving DecidableEq, Repr

/-- Order row, from services/order/internal/domain (struct Order). -/
structure Order where
  id : Int
  userId : Int
  amount : Int
  quantity : Int
  status : OrderStatus
  version : Int
  idempotencyKey : String
  deriving DecidableEq, Repr

/-- The inbound events the Order service consumes, from
services/order/internal/handler EventHandler.HandleMessage dispatch. -/
inductive OrderInEvent
  | PaymentCompleted
  | PaymentFailed
  | StockReserved
  | StockReservationFailed
  | DeliveryStarted
  | DeliveryFailed
  deriving DecidableEq, Repr

/-- orderRepository.UpdateStatusWithVersion: update guarded by
`WHERE id = $2 AND version = $3`; returns the updated row and whether a row
was affected. The id predicate is vacuous for the single row passed in. -/
def updateStatusWithVersion (o : Order) (newStatus : OrderStatus)
    (currentVersion : Int) : Order × Bool :=
  if o.version = currentVersion then
    ({ o with status := newStatus, version := o.version + 1 }, true)
  else
    (o, false)

/-- orderService.HandlePaymentCompleted: transition guarded by
`order.Status == domain.OrderStatusPending`. -/
def handlePaymentCompleted (o : Order) : Order :=
  if o.status = OrderStatus.PENDING then
    (updateStatusWithVersion o OrderStatus.STOCK_RESERVING o.version).1
  else
    o

/-- orderService.HandlePaymentFailed: the status update to CANCELED is issued
with no guard on the current status. -/
def handlePaymentFailed (o : Order) : Order :=
  (updateStatusWithVersion o OrderStatus.CANCELED o.version).1

/-- orderService.HandleStockReserved: transition guarded by
`order.Status == domain.OrderStatusStockReserving`. -/
def handleStockReserved (o : Order) : Order :=
  if o.status = OrderStatus.STOCK_RESERVING then
    (updateStatusWithVersion o OrderStatus.DELIVERY_PREPARING o.version).1
  else
    o

/-- orderService.HandleStockReservationFailed: the status update to FAILED is
issued with no guard on the current status. -/
def handleStockReservationFailed (o : Order) : Order :=
  (updateStatusWithVersion o OrderStatus.FAILED o.version).1

/-- orderService.HandleDeliveryStarted: transition guarded by
`order.Status == domain.OrderStatusDeliveryPreparing`. -/
def handleDeliveryStarted (o : Order) : Order :=
  if o.status = OrderStatus.DELIVERY_PREPARING then
    (updateStatusWithVersion o OrderStatus.COMPLETED o.version).1
  else
    o

/-- orderService.HandleDeliveryFailed: the status update to FAILED is issued
with no guard on the current status. -/
def handleDeliveryFailed (o : Order) : Order :=
  (updateStatusWithVersion o OrderStatus.FAILED o.version).1

/-- Dispatch of an inbound event to the Order service handler, from
EventHandler.HandleMessage. -/
def orderHandleEvent (o : Order) (e : OrderInEvent) : Order :=
  match e with
  | OrderInEvent.PaymentCompleted => handlePaymentCompleted o
  | OrderInEvent.PaymentFailed => handlePaymentFailed o
  | OrderInEvent.StockReserved => handleStockReserved o
  | OrderInEvent.StockReservationFailed => handleStockReservationFailed o
  | OrderInEvent.DeliveryStarted => handleDeliveryStarted o
  | OrderInEvent.DeliveryFailed => handleDeliveryFailed o

/-- The transition table of spec section 4.1, written from the spec's words
(for the refinement comparison in claim C2): `none` means the event does not
match the current state and must be a no-op. -/
def sagaTableNext (s : OrderStatus) (e : OrderInEvent) : Option OrderStatus :=
  match s, e with
  | OrderStatus.PENDING, OrderInEvent.PaymentCompleted =>
      some OrderStatus.STOCK_RESERVING
  | OrderStatus.PENDING, OrderInEvent.PaymentFailed =>
      some OrderStatus.CANCELED
  | OrderStatus.STOCK_RESERVING, OrderInEvent.StockReserved =>
      some OrderStatus.DELIVERY_PREPARING
  | OrderStatus.STOCK_RESERVING, OrderInEvent.StockReservationFailed =>
      some OrderStatus.FAILED
  | OrderStatus.DELIVERY_PREPARING, OrderInEvent.DeliveryStarted =>
      some OrderStatus.COMPLETED
  | OrderStatus.DELIVERY_PREPARING, OrderInEvent.DeliveryFailed =>
      some OrderStatus.FAILED
  | _, _ => none

/-- Sample completed order used in concrete evaluations. -/
def completedOrder : Order :=
  { id := 7, userId := 1001, amount := 50000, quantity := 1,
    status := OrderStatus.COMPLETED, version := 4, idempotencyKey := "k1" }

/-- Bus message as carried to consumer handlers, from common/messaging
(struct Message). -/
structure BusMessage where
  topic : String
  partition : Int
  offset : Int
  key : String
  value : String
  deriving DecidableEq, Repr

/-- consumerGroupHandler.ConsumeClaim, from common/messaging/kafka.go: for
each message of the claim, run the handler, then call
`session.MarkMessage(message, "")` unconditionally (an error result is only
logged). The returned list records, in order, each handler result paired
with the message that was marked right after that result came back. -/
def consumeClaim (handler : BusMessage → Except String Unit) :
    List BusMessage → List (Except String Unit × BusMessage)
  | [] => []
  | m :: rest => (handler m, m) :: consumeClaim handler rest

/-- Sample message used in concrete evaluations of the consumer loop. -/
def sampleMessage : BusMessage :=
  { topic := "order.created.v1", partition := 0, offset := 42,
    key := "", value := "payload-bytes" }

/-- Go string conversion `string(rune(n))`: the one-character string with
code point n, or the replacement character U+FFFD when n is not a valid
code point (negative, a surrogate, or above 0x10FFFF). -/
def goRuneString (n : Int) : String :=
  if 0 ≤ n ∧ n < 55296 ∨ 57343 < n ∧ n < 1114112 then
    String.singleton (Char.ofNat n.toNat)
  else
    String.singleton (Char.ofNat 65533)

/-- OutboxWorker.publishEvent (Order service relay), key computation: the
payload's `orderId` field, when present as a JSON number, is converted with
`string(rune(int64(oid)))`; otherwise the key is the empty string. -/
def orderRelayKey (payloadOrderId : Option Int) : String :=
  match payloadOrderId with
  | some oid => goRuneString oid
  | none => ""

/-- startOutboxWorker (Payment service relay), from
services/payment/cmd/main.go: every publish passes the literal empty string
as the partition key. -/
def paymentRelayKey : String := ""

/-- messaging.PublishWithOrderID helper, from common/messaging/kafka.go:
`strconv.FormatInt(orderID, 10)` — the order id as a decimal string. This
helper is not called by either relay. -/
def publishWithOrderIDKey (orderId : Int) : String := toString orderId

/-- Error codes used by common/errors, as referenced by the services. -/
inductive ErrCode
  | DatabaseError
  | PaymentDeclined
  | SerializationError
  | InvalidOrder
  | OrderNotFound
  deriving DecidableEq, Repr

/-- A service-level error: either wrapped with a code (errors.Wrap /
errors.New) or a plain fmt.Errorf error. -/
inductive SvcError
  | coded (c : ErrCode) (msg : String)
  | plain (msg : String)
  deriving DecidableEq, Repr

/-- Outbox row, from the repositories' outbox_events table: the columns the
claims depend on (payload is summarized by its event type and aggregate). -/
structure OutboxRow where
  id : Int
  aggregateType : String
  aggregateId : Int
  eventType : String
  status : String
  deriving DecidableEq, Repr

/-- Payment status, from services/payment/internal/domain. -/
inductive PaymentStatus
  | PENDING
  | COMPLETED
  | FAILED
  | REFUNDED
  deriving DecidableEq, Repr

/-- Payment row, from services/payment/internal/domain (struct Payment). -/
structure Payment where
  id : Int
  orderId : Int
  amount : Int
  paymentType : String
  status : PaymentStatus
  idempotencyKey : String
  deriving DecidableEq, Repr

/-- The Payment service's database: payments table, outbox table, and the
BIGSERIAL counters. -/
structure PaymentDB where
  payments : List Payment
  outbox : List OutboxRow
  nextPaymentId : Int
  nextOutboxId : Int
  deriving DecidableEq, Repr

/-- OrderCreated event body as produced by orderService.CreateOrder. -/
structure OrderCreatedEvt where
  eventId : String
  correlationId : String
  orderId : Int
  userId : Int
  amount : Int
  quantity : Int
  deriving DecidableEq, Repr

/-- Idempotency key derivation in paymentService.HandleOrderCreated:
`fmt.Sprintf("payment-%d-%s", evt.OrderID, evt.EventID)`. -/
def paymentIdemKey (evt : OrderCreatedEvt) : String :=
  "payment-" ++ toString evt.orderId ++ "-" ++ evt.eventId

/-- paymentRepository.FindByIdempotencyKey: point query on the unique
idempotency_key column. -/
def findPaymentByIdemKey (db : PaymentDB) (key : String) : Option Payment :=
  db.payments.find? (fun p => p.idempotencyKey == key)

/-- Repository-level error of paymentRepository.Create: a pq unique
violation (code 23505) is mapped to a distinguished duplicate-key error. -/
inductive RepoErr
  | duplicateKey
  deriving DecidableEq, Repr

/-- paymentRepository.Create: INSERT on the raw connection `r.db` (NOT on
the handler's open transaction), returning the new id; on a unique-index hit
for idempotency_key it returns the duplicate-key error and writes nothing. -/
def paymentCreate (db : PaymentDB) (p : Payment) :
    Except RepoErr (PaymentDB × Int) :=
  if (findPaymentByIdemKey db p.idempotencyKey).isSome then
    Except.error RepoErr.duplicateKey
  else
    Except.ok
      ({ db with
          payments := db.payments ++ [{ p with id := db.nextPaymentId }],
          nextPaymentId := db.nextPaymentId + 1 },
        db.nextPaymentId)

/-- paymentService.HandleOrderCreated, from
services/payment/internal/service. Statement-by-statement translation:
1. derive the idempotency key; 2. FindByIdempotencyKey — `gateMisses` models
   the stale read of a racing duplicate that evades this check;
3. BeginTx with `defer tx.Rollback()`;
4. processPayment — `declined` models the gateway's stochastic decline; on
   decline, publishPaymentFailed inserts a PaymentFailed outbox row on the
   tx, commits the tx, and returns a plain error;
5. paymentRepo.Create writes the payment row on the raw connection (it
   commits immediately, independent of the open tx); a duplicate-key error
   is wrapped as a DATABASE_ERROR and returned;
6. outboxRepo.InsertTx buffers the PaymentCompleted row on the tx —
   `failOutboxInsert` models this insert failing, in which case the handler
   returns and the deferred rollback discards the buffered row (but not the
   payment row already written on the raw connection);
7. tx.Commit() makes the buffered outbox row durable. -/
def handleOrderCreated (db : PaymentDB) (evt : OrderCreatedEvt)
    (gateMisses declined failOutboxInsert : Bool) :
    Except SvcError Unit × PaymentDB :=
  let key := paymentIdemKey evt
  let seen := if gateMisses then none else findPaymentByIdemKey db key
  match seen with
  | some _ => (Except.ok (), db)
  | none =>
    if declined then
      let row : OutboxRow :=
        { id := db.nextOutboxId, aggregateType := "payment",
          aggregateId := evt.orderId, eventType := "payment.failed.v1",
          status := "PENDING" }
      (Except.error (SvcError.plain "payment failed: payment declined by gateway"),
        { db with
            outbox := db.outbox ++ [row],
            nextOutboxId := db.nextOutboxId + 1 })
    else
      match paymentCreate db
          { id := 0, orderId := evt.orderId, amount := evt.amount,
            paymentType := "CARD", status := PaymentStatus.COMPLETED,
            idempotencyKey := key } with
      | Except.error _ =>
          (Except.error (SvcError.coded ErrCode.DatabaseError
              "failed to create payment"), db)
      | Except.ok (db1, pid) =>
          if failOutboxInsert then
            (Except.error (SvcError.coded ErrCode.DatabaseError
                "failed to insert outbox event"), db1)
          else
            let row : OutboxRow :=
              { id := db1.nextOutboxId, aggregateType := "payment",
                aggregateId := pid, eventType := "payment.completed.v1",
                status := "PENDING" }
            (Except.ok (),
              { db1 with
                  outbox := db1.outbox ++ [row],
                  nextOutboxId := db1.nextOutboxId + 1 })

/-- Empty Payment database. -/
def emptyPaymentDB : PaymentDB :=
  { payments := [], outbox := [], nextPaymentId := 1, nextOutboxId := 1 }

/-- Sample OrderCreated event used in concrete evaluations. -/
def sampleOrderCreated : OrderCreatedEvt :=
  { eventId := "evt-1", correlationId := "saga-1", orderId := 10,
    userId := 1001, amount := 50000, quantity := 1 }

/-- A Payment database that already holds the payment row for
`sampleOrderCreated` (the state a racing duplicate delivery observes at
insert time). -/
def dupPaymentDB : PaymentDB :=
  { payments := [{
      id := 1,
      orderId := 10,
      amount := 50000,
      paymentType := "CARD",
      status := PaymentStatus.COMPLETED,
      idempotencyKey := "payment-10-evt-1" }],
    outbox := [{
      id := 1,
      aggregateType := "payment",
      aggregateId := 1,
      eventType := "payment.completed.v1",
      status := "PENDING" }],
    nextPaymentId := 2,
    nextOutboxId := 2 }

/-- Reservation status, from the stock_reservations table (scripts/
init-inventory-db.sql). -/
inductive ReservationStatus
  | RESERVED
  | CONFIRMED
  | CANCELED
  | EXPIRED
  deriving DecidableEq, Repr

/-- Stock reservation row, from the stock_reservations table as written by
inventoryService.HandlePaymentCompleted. -/
structure StockReservation where
  id : Int
  orderId : Int
  productId : Int
  quantity : Int
  status : ReservationStatus
  idempotencyKey : String
  deriving DecidableEq, Repr

/-- Inventory row: productId, availableQty, reservedQty, version. -/
structure InventoryRow where
  productId : Int
  availableQty : Int
  reservedQty : Int
  version : Int
  deriving DecidableEq, Repr

/-- The Inventory service's database. -/
structure InventoryDB where
  inventory : List InventoryRow
  reservations : List StockReservation
  outbox : List OutboxRow
  nextReservationId : Int
  nextOutboxId : Int
  deriving DecidableEq, Repr

/-- PaymentCompleted event body as produced by
paymentService.HandleOrderCreated (it carries no product id and no
quantity). -/
structure PaymentCompletedEvt where
  eventId : String
  correlationId : String
  orderId : Int
  paymentId : Int
  amount : Int
  deriving DecidableEq, Repr

/-- PaymentRefunded event body as produced by
paymentService.HandleStockReservationFailed. -/
structure PaymentRefundedEvt where
  eventId : String
  correlationId : String
  orderId : Int
  paymentId : Int
  amount : Int
  deriving DecidableEq, Repr

/-- Idempotency key derivation in
inventoryService.HandlePaymentCompleted:
`fmt.Sprintf("stock-reservation-%d-%s", evt.OrderID, evt.EventID)`. -/
def stockIdemKey (evt : PaymentCompletedEvt) : String :=
  "stock-reservation-" ++ toString evt.orderId ++ "-" ++ evt.eventId

/-- inventoryService.publishStockReservationFailed: insert a
StockReservationFailed outbox row on the open transaction, commit it, and
return a non-nil error carrying the reason. -/
def invPublishFailed (db : InventoryDB) (evt : PaymentCompletedEvt)
    (reason : String) : Except SvcError Unit × InventoryDB :=
  let row : OutboxRow :=
    { id := db.nextOutboxId, aggregateType := "order",
      aggregateId := evt.orderId,
      eventType := "stock.reservation_failed.v1", status := "PENDING" }
  (Except.error (SvcError.plain ("stock reservation failed: " ++ reason)),
    { db with
        outbox := db.outbox ++ [row],
        nextOutboxId := db.nextOutboxId + 1 })

/-- inventoryService.HandlePaymentCompleted, from
services/inventory/internal/service. Statement-by-statement: idempotency
lookup on stock_reservations; hard-coded `productID := 1` and
`quantity := 1` (the event is not consulted for either); SELECT ... FOR
UPDATE on inventory; insufficient-stock check against the hard-coded
quantity; version-guarded UPDATE decrementing availableQty and incrementing
reservedQty by that quantity; reservation insert with status RESERVED; and a
StockReserved outbox row, all committed together. -/
def invHandlePaymentCompleted (db : InventoryDB) (evt : PaymentCompletedEvt) :
    Except SvcError Unit × InventoryDB :=
  let key := stockIdemKey evt
  if (db.reservations.find? (fun r => r.idempotencyKey == key)).isSome then
    (Except.ok (), db)
  else
    let productID : Int := 1
    let quantity : Int := 1
    match db.inventory.find? (fun r => r.productId == productID) with
    | none => invPublishFailed db evt "product not found"
    | some row =>
      if row.availableQty < quantity then
        invPublishFailed db evt "insufficient stock"
      else
        let affected := (db.inventory.filter
          (fun r => r.productId == productID && r.version == row.version)).length
        if affected = 0 then
          invPublishFailed db evt "version conflict"
        else
          let inv2 := db.inventory.map (fun r =>
            if r.productId == productID && r.version == row.version then
              { r with
                  availableQty := r.availableQty - quantity,
                  reservedQty := r.reservedQty + quantity,
                  version := r.version + 1 }
            else r)
          let res : StockReservation :=
            { id := db.nextReservationId, orderId := evt.orderId,
              productId := productID, quantity := quantity,
              status := ReservationStatus.RESERVED, idempotencyKey := key }
          let row2 : OutboxRow :=
            { id := db.nextOutboxId, aggregateType := "stock_reservation",
              aggregateId := db.nextReservationId,
              eventType := "stock.reserved.v1", status := "PENDING" }
          (Except.ok (),
            { inventory := inv2,
              reservations := db.reservations ++ [res],
              outbox := db.outbox ++ [row2],
              nextReservationId := db.nextReservationId + 1,
              nextOutboxId := db.nextOutboxId + 1 })

/-- inventoryService.HandlePaymentRefunded, from
services/inventory/internal/service: look up the active RESERVED
reservation for the order (none found is a silent no-op returning nil);
otherwise, in one transaction, add the reservation's quantity back to
availableQty and subtract it from reservedQty (no version guard in the
source UPDATE), set the reservation CANCELED, and emit StockRestored. -/
def invHandlePaymentRefunded (db : InventoryDB) (evt : PaymentRefundedEvt) :
    Except SvcError Unit × InventoryDB :=
  match db.reservations.find? (fun r =>
      r.orderId == evt.orderId && r.status == ReservationStatus.RESERVED) with
  | none => (Except.ok (), db)
  | some res =>
    let inv2 := db.inventory.map (fun r =>
      if r.productId == res.productId then
        { r with
            availableQty := r.availableQty + res.quantity,
            reservedQty := r.reservedQty - res.quantity,
            version := r.version + 1 }
      else r)
    let rs2 := db.reservations.map (fun r =>
      if r.id == res.id then
        { r with status := ReservationStatus.CANCELED }
      else r)
    let row : OutboxRow :=
      { id := db.nextOutboxId, aggregateType := "stock_reservation",
        aggregateId := res.id, eventType := "stock.restored.v1",
        status := "PENDING" }
    (Except.ok (),
      { inventory := inv2,
        reservations := rs2,
        outbox := db.outbox ++ [row],
        nextReservationId := db.nextReservationId,
        nextOutboxId := db.nextOutboxId + 1 })

/-- The availableQty + reservedQty total for a product, the quantity the
invariant of spec section 8.4 tracks. -/
def invQtySum (db : InventoryDB) (pid : Int) : Option Int :=
  (db.inventory.find? (fun r => r.productId == pid)).map
    (fun r => r.availableQty + r.reservedQty)

/-- Inventory database for the concrete evaluation of claim C5: product 1
has availableQty 2, while the order behind the payment requested quantity 3
(the event cannot even carry that fact). -/
def lowStockDB : InventoryDB :=
  { inventory := [{
      productId := 1,
      availableQty := 2,
      reservedQty := 0,
      version := 0 }],
    reservations := [],
    outbox := [],
    nextReservationId := 1,
    nextOutboxId := 1 }

/-- Sample PaymentCompleted event used in concrete evaluations. -/
def samplePaymentCompleted : PaymentCompletedEvt :=
  { eventId := "evt-5", correlationId := "saga-2", orderId := 20,
    paymentId := 3, amount := 150000 }

/-- CreateOrder command, from services/order/internal/service
(CreateOrderCommand). -/
structure CreateOrderCommand where
  userId : Int
  amount : Int
  quantity : Int
  idempotencyKey : String
  deriving DecidableEq, Repr

/-- CreateOrder result, from services/order/internal/service
(CreateOrderResult). -/
structure CreateOrderResult where
  orderId : Int
  status : OrderStatus
  deriving DecidableEq, Repr

/-- The Order service's database: orders table, outbox table, counters. -/
structure OrderDB where
  orders : List Order
  outbox : List OutboxRow
  nextOrderId : Int
  nextOutboxId : Int
  deriving DecidableEq, Repr

/-- orderRepository.FindByIdempotencyKey: point query on the unique
idempotency_key column. -/
def findOrderByIdemKey (db : OrderDB) (key : String) : Option Order :=
  db.orders.find? (fun o => o.idempotencyKey == key)

/-- orderRepository.Create: INSERT on the raw connection `r.db` (the handler
passes ctx but not its open transaction), RETURNING id and version; a pq
unique violation on idempotency_key becomes the duplicate-key error. -/
def orderCreate (db : OrderDB) (o : Order) : Except RepoErr (OrderDB × Order) :=
  if (findOrderByIdemKey db o.idempotencyKey).isSome then
    Except.error RepoErr.duplicateKey
  else
    let o2 := { o with id := db.nextOrderId, version := 0 }
    Except.ok
      ({ db with
          orders := db.orders ++ [o2],
          nextOrderId := db.nextOrderId + 1 },
        o2)

/-- orderService.CreateOrder, from services/order/internal/service.
Statement-by-statement: 1. when the command carries a non-empty
idempotencyKey, look it up first and return the existing order's id and
status on a hit; 2. validate amount > 0 then quantity > 0, returning
INVALID_ORDER otherwise; 3. BeginTx; 4. orderRepo.Create writes the PENDING
order on the raw connection; 5. an OrderCreated outbox row is inserted on
the transaction; 6. Commit. (The deterministic success path is modelled;
claims C8-C10 concern the idempotency and validation ordering.) -/
def createOrder (db : OrderDB) (cmd : CreateOrderCommand) :
    Except SvcError CreateOrderResult × OrderDB :=
  let existing := if cmd.idempotencyKey = "" then none
    else findOrderByIdemKey db cmd.idempotencyKey
  match existing with
  | some o => (Except.ok { orderId := o.id, status := o.status }, db)
  | none =>
    if cmd.amount ≤ 0 then
      (Except.error (SvcError.coded ErrCode.InvalidOrder
          "amount must be positive"), db)
    else if cmd.quantity ≤ 0 then
      (Except.error (SvcError.coded ErrCode.InvalidOrder
          "quantity must be positive"), db)
    else
      match orderCreate db
          { id := 0, userId := cmd.userId, amount := cmd.amount,
            quantity := cmd.quantity, status := OrderStatus.PENDING,
            version := 0, idempotencyKey := cmd.idempotencyKey } with
      | Except.error _ =>
          (Except.error (SvcError.coded ErrCode.DatabaseError
              "failed to create order"), db)
      | Except.ok (db1, o) =>
          let row : OutboxRow :=
            { id := db1.nextOutboxId, aggregateType := "order",
              aggregateId := o.id, eventType := "order.created.v1",
              status := "PENDING" }
          (Except.ok { orderId := o.id, status := o.status },
            { db1 with
                outbox := db1.outbox ++ [row],
                nextOutboxId := db1.nextOutboxId + 1 })

/-- HTTP request body of POST /orders, from
services/order/internal/handler (CreateOrderRequest). -/
structure CreateOrderRequest where
  userId : Int
  amount : Int
  quantity : Int
  idempotencyKey : String
  deriving DecidableEq, Repr

/-- HTTPHandler.CreateOrder, from services/order/internal/handler: when the
request has no idempotencyKey a fresh uuid (`genKey`) is generated; the
service is called; any service error is answered with
http.StatusInternalServerError (500), success with http.StatusCreated
(201). The result is the HTTP status code and the resulting database. -/
def httpCreateOrder (db : OrderDB) (req : CreateOrderRequest)
    (genKey : String) : Int × OrderDB :=
  let key := if req.idempotencyKey = "" then genKey else req.idempotencyKey
  match createOrder db
      { userId := req.userId, amount := req.amount,
        quantity := req.quantity, idempotencyKey := key } with
  | (Except.error _, db2) => (500, db2)
  | (Except.ok _, db2) => (201, db2)

/-- Empty Order database. -/
def emptyOrderDB : OrderDB :=
  { orders := [], outbox := [], nextOrderId := 1, nextOutboxId := 1 }

/-- Sample CreateOrder command with a non-empty idempotency key. -/
def sampleCreateCmd : CreateOrderCommand :=
  { userId := 1001, amount := 50000, quantity := 1, idempotencyKey := "k1" }

/-- An Order database holding one PENDING order under idempotency key "k1"
(the state a duplicate POST /orders observes). -/
def dbWithK1 : OrderDB :=
  { orders := [{
      id := 1,
      userId := 1001,
      amount := 50000,
      quantity := 1,
      status := OrderStatus.PENDING,
      version := 0,
      idempotencyKey := "k1" }],
    outbox := [{
      id := 1,
      aggregateType := "order",
      aggregateId := 1,
      eventType := "order.created.v1",
      status := "PENDING" }],
    nextOrderId := 2,
    nextOutboxId := 2 }

/-- A CreateOrder command reusing key "k1" with non-positive amount and
quantity (for the validation-unreachable evaluation of claim C10). -/
def invalidDupCmd : CreateOrderCommand :=
  { userId := 5, amount := 0, quantity := -1, idempotencyKey := "k1" }

end Saga

namespace Saga

/-- C2 counterexample: an order already in the terminal state COMPLETED that
receives a PaymentFailed event is moved to CANCELED by the code, although the
spec's table has no transition there and demands a no-op. -/
theorem C2_terminal_state_not_preserved :
    (orderHandleEvent completedOrder OrderInEvent.PaymentFailed).status
        = OrderStatus.CANCELED
      ∧ sagaTableNext OrderStatus.COMPLETED OrderInEvent.PaymentFailed
        = none := by
  constructor
  · rfl
  · rfl

/-- C2 amended: the three success handlers (PaymentCompleted, StockReserved,
DeliveryStarted) follow the spec table and no-op outside their matching
state, but PaymentFailed always sets CANCELED and StockReservationFailed and
DeliveryFailed always set FAILED, regardless of the current status. -/
theorem C2_transition_characterization (o : Order) (e : OrderInEvent) :
    (orderHandleEvent o e).status =
      match e, o.status with
      | OrderInEvent.PaymentCompleted, OrderStatus.PENDING =>
          OrderStatus.STOCK_RESERVING
      | OrderInEvent.PaymentCompleted, s => s
      | OrderInEvent.PaymentFailed, _ => OrderStatus.CANCELED
      | OrderInEvent.StockReserved, OrderStatus.STOCK_RESERVING =>
          OrderStatus.DELIVERY_PREPARING
      | OrderInEvent.StockReserved, s => s
      | OrderInEvent.StockReservationFailed, _ => OrderStatus.FAILED
      | OrderInEvent.DeliveryStarted, OrderStatus.DELIVERY_PREPARING =>
          OrderStatus.COMPLETED
      | OrderInEvent.DeliveryStarted, s => s
      | OrderInEvent.DeliveryFailed, _ => OrderStatus.FAILED := by
  cases e <;> cases h : o.status <;>
    simp [orderHandleEvent, handlePaymentCompleted, handlePaymentFailed,
      handleStockReserved, handleStockReservationFailed,
      handleDeliveryStarted, handleDeliveryFailed,
      updateStatusWithVersion, h]

/-- C3 counterexample: a message whose handler returns a transient error is
still marked (offset committed) by ConsumeClaim, so the bus will not
redeliver it — contradicting the claim that the offset is never committed
when the handler errors. -/
theorem C3_error_still_marked :
    consumeClaim (fun _ => Except.error "transient") [sampleMessage]
      = [(Except.error "transient", sampleMessage)] := by
  rfl

/-- C3 amended: the consumer marks every consumed message exactly once, in
order, and each mark happens only after that message's handler has returned;
but it marks whether or not the handler returned an error, so an erroring
handler does not leave the message uncommitted. -/
theorem C3_marks_after_handler (handler : BusMessage → Except String Unit)
    (msgs : List BusMessage) :
    (consumeClaim handler msgs).map Prod.snd = msgs
      ∧ (consumeClaim handler msgs).map Prod.fst = msgs.map handler := by
  induction msgs with
  | nil => exact ⟨rfl, rfl⟩
  | cons m rest ih =>
      refine ⟨?_, ?_⟩
      · simpa [consumeClaim] using ih.1
      · simpa [consumeClaim] using ih.2

/-- C4: the partition key is not the order id as a decimal string. The Order
relay key for order id 66 is the one-character string with code point 66
("B", via `string(rune(oid))`), and the Payment relay key is the empty
string; the decimal rendering (as the unused PublishWithOrderID helper
computes) would be "66". -/
theorem C4_relay_key_not_decimal :
    orderRelayKey (some 66) = "B"
      ∧ publishWithOrderIDKey 66 = "66"
      ∧ orderRelayKey (some 66) ≠ publishWithOrderIDKey 66
      ∧ paymentRelayKey ≠ publishWithOrderIDKey 66 := by
  refine ⟨by decide, by decide, by decide, by decide⟩

/-- C1: when the PaymentCompleted outbox insert fails and the handler's
transaction rolls back, the payment row nevertheless persists (it was
written on the raw connection, outside the transaction) while the outbox row
does not — the aggregate mutation and the outbox insert are not atomic,
contrary to the claim that a rollback leaves neither. -/
theorem C1_rollback_keeps_aggregate_row :
    handleOrderCreated emptyPaymentDB sampleOrderCreated false false true
      = (Except.error (SvcError.coded ErrCode.DatabaseError
            "failed to insert outbox event"),
          { payments := [{
              id := 1,
              orderId := 10,
              amount := 50000,
              paymentType := "CARD",
              status := PaymentStatus.COMPLETED,
              idempotencyKey := "payment-10-evt-1" }],
            outbox := [],
            nextPaymentId := 2,
            nextOutboxId := 1 }) := by
  rfl

/-- C6 counterexample: a duplicate OrderCreated delivery that evades the
idempotency gate (stale read) and hits the unique index on idempotency_key
makes the handler return a DATABASE_ERROR — not the claimed
"already applied — success". -/
theorem C6_duplicate_insert_not_success :
    (handleOrderCreated dupPaymentDB sampleOrderCreated true false false).1
        = Except.error (SvcError.coded ErrCode.DatabaseError
            "failed to create payment")
      ∧ (handleOrderCreated dupPaymentDB sampleOrderCreated true false false).1
        ≠ Except.ok () := by
  refine ⟨rfl, ?_⟩
  intro h
  rw [show (handleOrderCreated dupPaymentDB sampleOrderCreated true false false).1
        = Except.error (SvcError.coded ErrCode.DatabaseError
            "failed to create payment") from rfl] at h
  exact Except.noConfusion h

/-- C6 amended: when the idempotency gate misses and the payment insert hits
the unique index on idempotency_key, the handler returns the unique
violation wrapped as a DATABASE_ERROR ("failed to create payment") and
leaves the database unchanged — no event is emitted, but the result is an
error, not success. -/
theorem C6_duplicate_insert_behavior (db : PaymentDB) (evt : OrderCreatedEvt)
    (h : (findPaymentByIdemKey db (paymentIdemKey evt)).isSome = true) :
    handleOrderCreated db evt true false false
      = (Except.error (SvcError.coded ErrCode.DatabaseError
          "failed to create payment"), db) := by
  simp [handleOrderCreated, paymentCreate, h]

/-- Helper: mapping a productId-preserving, sum-preserving function over the
inventory table does not change the availableQty + reservedQty total found
for any product. -/
theorem find?_map_qtySum (rows : List InventoryRow) (pid : Int)
    (f : InventoryRow → InventoryRow)
    (hpid : ∀ r, (f r).productId = r.productId)
    (hsum : ∀ r, (f r).availableQty + (f r).reservedQty
      = r.availableQty + r.reservedQty) :
    ((rows.map f).find? (fun r => r.productId == pid)).map
        (fun r => r.availableQty + r.reservedQty)
      = (rows.find? (fun r => r.productId == pid)).map
        (fun r => r.availableQty + r.reservedQty) := by
  induction rows with
  | nil => rfl
  | cons a t ih =>
      cases h : (a.productId == pid) with
      | false =>
          have h2 : (((f a).productId == pid) = false) := by
            rw [hpid]; exact h
          simpa [List.find?, h, h2] using ih
      | true =>
          have h2 : (((f a).productId == pid) = true) := by
            rw [hpid]; exact h
          simp [List.find?, h, h2, hsum]

/-- Helper: the reservation handler preserves availableQty + reservedQty
for every product (it moves the hard-coded quantity from available to
reserved, or leaves inventory untouched on its failure paths). -/
theorem invQtySum_handlePaymentCompleted (db : InventoryDB)
    (evt : PaymentCompletedEvt) (pid : Int) :
    invQtySum (invHandlePaymentCompleted db evt).2 pid = invQtySum db pid := by
  unfold invHandlePaymentCompleted
  dsimp only
  split
  · rfl
  · split
    · simp [invPublishFailed, invQtySum]
    · split
      · simp [invPublishFailed, invQtySum]
      · split
        · simp [invPublishFailed, invQtySum]
        · simp only [invQtySum]
          apply find?_map_qtySum
          · intro r
            split <;> rfl
          · intro r
            split
            · simp
            · rfl

/-- Helper: the restore handler preserves availableQty + reservedQty for
every product (it moves the reservation's quantity back from reserved to
available, or leaves inventory untouched when no active reservation
exists). -/
theorem invQtySum_handlePaymentRefunded (db : InventoryDB)
    (evt : PaymentRefundedEvt) (pid : Int) :
    invQtySum (invHandlePaymentRefunded db evt).2 pid = invQtySum db pid := by
  unfold invHandlePaymentRefunded
  split
  · rfl
  · simp only [invQtySum]
    apply find?_map_qtySum
    · intro r
      split <;> rfl
    · intro r
      split
      · simp
      · rfl

/-- C7: for every product, after the Inventory service consumes a
PaymentRefunded on the state left by consuming a PaymentCompleted, the
availableQty + reservedQty total equals its value before the
PaymentCompleted was consumed (reservation and restore move the same
quantity between the two columns in opposite directions). -/
theorem C7_refund_restores_qty_sum (db : InventoryDB)
    (evtC : PaymentCompletedEvt) (evtR : PaymentRefundedEvt) (pid : Int) :
    invQtySum
        (invHandlePaymentRefunded
          (invHandlePaymentCompleted db evtC).2 evtR).2 pid
      = invQtySum db pid :=
  (invQtySum_handlePaymentRefunded _ _ _).trans
    (invQtySum_handlePaymentCompleted _ _ _)

/-- C5: Inventory ignores the order's product and quantity. On a
PaymentCompleted for an order requesting quantity 3 of product 2 while
product 1 has availableQty 2, the code reserves exactly 1 unit of product 1
and emits StockReserved — it does not emit StockReservationFailed although
the available quantity (2) is below the requested quantity (3); the event
carries neither the product nor the quantity. -/
theorem C5_reserves_hardcoded_one :
    invHandlePaymentCompleted lowStockDB samplePaymentCompleted
      = (Except.ok (),
          { inventory := [{
              productId := 1,
              availableQty := 1,
              reservedQty := 1,
              version := 1 }],
            reservations := [{
              id := 1,
              orderId := 20,
              productId := 1,
              quantity := 1,
              status := ReservationStatus.RESERVED,
              idempotencyKey := "stock-reservation-20-evt-5" }],
            outbox := [{
              id := 1,
              aggregateType := "stock_reservation",
              aggregateId := 1,
              eventType := "stock.reserved.v1",
              status := "PENDING" }],
            nextReservationId := 2,
            nextOutboxId := 2 }) := by
  rfl

/-- Helper: on a fresh non-empty idempotency key and valid inputs,
CreateOrder appends exactly one PENDING order row and one OrderCreated
outbox row and returns the new id with status PENDING. -/
theorem createOrder_fresh_eq (db : OrderDB) (cmd : CreateOrderCommand)
    (hkey : cmd.idempotencyKey ≠ "")
    (hfresh : findOrderByIdemKey db cmd.idempotencyKey = none)
    (ha : ¬ cmd.amount ≤ 0) (hq : ¬ cmd.quantity ≤ 0) :
    createOrder db cmd
      = (Except.ok { orderId := db.nextOrderId, status := OrderStatus.PENDING },
          { orders := db.orders ++ [{
              id := db.nextOrderId,
              userId := cmd.userId,
              amount := cmd.amount,
              quantity := cmd.quantity,
              status := OrderStatus.PENDING,
              version := 0,
              idempotencyKey := cmd.idempotencyKey }],
            outbox := db.outbox ++ [{
              id := db.nextOutboxId,
              aggregateType := "order",
              aggregateId := db.nextOrderId,
              eventType := "order.created.v1",
              status := "PENDING" }],
            nextOrderId := db.nextOrderId + 1,
            nextOutboxId := db.nextOutboxId + 1 }) := by
  simp [createOrder, orderCreate, hkey, hfresh, ha, hq]

/-- Helper: a non-empty idempotency key matching an existing order makes
CreateOrder return that order's id and status and change nothing; the
validation of amount and quantity is never reached. -/
theorem createOrder_existing_eq (db : OrderDB) (cmd : CreateOrderCommand)
    (o : Order) (hkey : cmd.idempotencyKey ≠ "")
    (hfound : findOrderByIdemKey db cmd.idempotencyKey = some o) :
    createOrder db cmd
      = (Except.ok { orderId := o.id, status := o.status }, db) := by
  simp [createOrder, hkey, hfound]

/-- C8: POSTing the same non-empty idempotencyKey twice returns the same
orderId both times, the key ends up on exactly one order row, and the
second call changes nothing (in particular it inserts no outbox row). -/
theorem C8_duplicate_create_idempotent (db : OrderDB)
    (cmd : CreateOrderCommand)
    (hkey : cmd.idempotencyKey ≠ "")
    (hfresh : findOrderByIdemKey db cmd.idempotencyKey = none)
    (ha : 0 < cmd.amount) (hq : 0 < cmd.quantity) :
    (createOrder db cmd).1
        = Except.ok { orderId := db.nextOrderId, status := OrderStatus.PENDING }
      ∧ (createOrder (createOrder db cmd).2 cmd).1 = (createOrder db cmd).1
      ∧ (createOrder (createOrder db cmd).2 cmd).2 = (createOrder db cmd).2
      ∧ ((createOrder db cmd).2.orders.filter
          (fun o => o.idempotencyKey == cmd.idempotencyKey)).length = 1 := by
  have ha' : ¬ cmd.amount ≤ 0 := not_le.mpr ha
  have hq' : ¬ cmd.quantity ≤ 0 := not_le.mpr hq
  have h1 := createOrder_fresh_eq db cmd hkey hfresh ha' hq'
  have hfresh' : db.orders.find?
      (fun o => o.idempotencyKey == cmd.idempotencyKey) = none := hfresh
  have hnil : db.orders.filter
      (fun o => o.idempotencyKey == cmd.idempotencyKey) = [] := by
    rw [List.filter_eq_nil_iff]
    intro a hmem
    exact List.find?_eq_none.mp hfresh' a hmem
  have hfind2 : findOrderByIdemKey (createOrder db cmd).2 cmd.idempotencyKey
      = some {
          id := db.nextOrderId,
          userId := cmd.userId,
          amount := cmd.amount,
          quantity := cmd.quantity,
          status := OrderStatus.PENDING,
          version := 0,
          idempotencyKey := cmd.idempotencyKey } := by
    rw [h1]
    unfold findOrderByIdemKey
    rw [List.find?_append, hfresh']
    simp
  have h2 := createOrder_existing_eq (createOrder db cmd).2 cmd
    { id := db.nextOrderId, userId := cmd.userId, amount := cmd.amount,
      quantity := cmd.quantity, status := OrderStatus.PENDING,
      version := 0, idempotencyKey := cmd.idempotencyKey } hkey hfind2
  refine ⟨by rw [h1], ?_, ?_, ?_⟩
  · rw [h2, h1]
  · rw [h2]
  · rw [h1]
    simp [List.filter_append, hnil]

/-- C8 witness: the concrete duplicated POST /orders with key "k1" starting
from the empty database. -/
theorem C8_duplicate_create_idempotent_witness :
    (sampleCreateCmd.idempotencyKey ≠ ""
        ∧ findOrderByIdemKey emptyOrderDB sampleCreateCmd.idempotencyKey = none
        ∧ 0 < sampleCreateCmd.amount
        ∧ 0 < sampleCreateCmd.quantity)
      ∧ ((createOrder emptyOrderDB sampleCreateCmd).1
          = Except.ok { orderId := 1, status := OrderStatus.PENDING }
        ∧ (createOrder (createOrder emptyOrderDB sampleCreateCmd).2
            sampleCreateCmd).1
          = (createOrder emptyOrderDB sampleCreateCmd).1
        ∧ (createOrder (createOrder emptyOrderDB sampleCreateCmd).2
            sampleCreateCmd).2
          = (createOrder emptyOrderDB sampleCreateCmd).2
        ∧ ((createOrder emptyOrderDB sampleCreateCmd).2.orders.filter
            (fun o => o.idempotencyKey == sampleCreateCmd.idempotencyKey)).length
          = 1) :=
  ⟨⟨by decide, rfl, by decide, by decide⟩,
    C8_duplicate_create_idempotent emptyOrderDB sampleCreateCmd
      (by decide) rfl (by decide) (by decide)⟩

/-- C9 counterexample: POST /orders with amount 0 and a fresh idempotency
key creates no order but is answered with HTTP 500, not the claimed 400. -/
theorem C9_http_500_not_400 :
    httpCreateOrder emptyOrderDB
        { userId := 1001, amount := 0, quantity := 1,
          idempotencyKey := "k9" } "gen-uuid"
      = (500, emptyOrderDB)
      ∧ (httpCreateOrder emptyOrderDB
          { userId := 1001, amount := 0, quantity := 1,
            idempotencyKey := "k9" } "gen-uuid").1 ≠ 400 := by
  exact ⟨rfl, by decide⟩

/-- C9 amended: for a non-positive amount or quantity under a fresh
idempotency key, the service rejects the command (no order is created) but
the HTTP layer maps the INVALID_ORDER error, like every service error, to
status 500 rather than 400. -/
theorem C9_nonpositive_input_500 (db : OrderDB) (req : CreateOrderRequest)
    (genKey : String)
    (hreq : findOrderByIdemKey db req.idempotencyKey = none)
    (hgen : findOrderByIdemKey db genKey = none)
    (hbad : req.amount ≤ 0 ∨ req.quantity ≤ 0) :
    httpCreateOrder db req genKey = (500, db) := by
  have hex : (if (if req.idempotencyKey = "" then genKey
        else req.idempotencyKey) = "" then (none : Option Order)
      else findOrderByIdemKey db
        (if req.idempotencyKey = "" then genKey else req.idempotencyKey))
      = none := by
    split
    · split
      · rfl
      · exact hgen
    · exact hreq
  unfold httpCreateOrder createOrder
  dsimp only
  rw [hex]
  rcases hbad with hb | hb
  · simp [hb]
  · by_cases ha : req.amount ≤ 0
    · simp [ha]
    · simp [ha, hb]

/-- C9 witness: the amended behavior at a concrete invalid request. -/
theorem C9_nonpositive_input_500_witness :
    (findOrderByIdemKey emptyOrderDB "w9" = none
      ∧ findOrderByIdemKey emptyOrderDB "gen" = none
      ∧ ((-5 : Int) ≤ 0 ∨ (0 : Int) ≤ 0))
      ∧ httpCreateOrder emptyOrderDB
          { userId := 7, amount := -5, quantity := 0,
            idempotencyKey := "w9" } "gen"
        = (500, emptyOrderDB) :=
  ⟨⟨rfl, rfl, Or.inl (by decide)⟩,
    C9_nonpositive_input_500 emptyOrderDB
      { userId := 7, amount := -5, quantity := 0, idempotencyKey := "w9" }
      "gen" rfl rfl (Or.inl (by decide))⟩

/-- C10: CreateOrder consults the idempotency key before validating: any
command whose non-empty key matches an existing order returns that order's
id and status successfully and changes nothing, regardless of the command's
amount and quantity. -/
theorem C10_idempotency_precedes_validation (db : OrderDB)
    (cmd : CreateOrderCommand) (o : Order)
    (hkey : cmd.idempotencyKey ≠ "")
    (hfound : findOrderByIdemKey db cmd.idempotencyKey = some o) :
    createOrder db cmd
      = (Except.ok { orderId := o.id, status := o.status }, db) :=
  createOrder_existing_eq db cmd o hkey hfound

/-- C10 witness: a duplicate key with amount 0 and quantity -1 still
succeeds with the stored order's id and status. -/
theorem C10_idempotency_precedes_validation_witness :
    (invalidDupCmd.idempotencyKey ≠ ""
      ∧ findOrderByIdemKey dbWithK1 invalidDupCmd.idempotencyKey
        = some {
            id := 1,
            userId := 1001,
            amount := 50000,
            quantity := 1,
            status := OrderStatus.PENDING,
            version := 0,
            idempotencyKey := "k1" }
      ∧ invalidDupCmd.amount ≤ 0
      ∧ invalidDupCmd.quantity ≤ 0)
      ∧ createOrder dbWithK1 invalidDupCmd
        = (Except.ok { orderId := 1, status := OrderStatus.PENDING },
            dbWithK1) :=
  ⟨⟨by decide, rfl, by decide, by decide⟩,
    C10_idempotency_precedes_validation dbWithK1 invalidDupCmd
      { id := 1, userId := 1001, amount := 50000, quantity := 1,
        status := OrderStatus.PENDING, version := 0, idempotencyKey := "k1" }
      (by decide) rfl⟩

/-- C6 witness: the amended behavior at the concrete duplicated delivery. -/
theorem C6_duplicate_insert_behavior_witness :
    (findPaymentByIdemKey dupPaymentDB
        (paymentIdemKey sampleOrderCreated)).isSome = true
      ∧ handleOrderCreated dupPaymentDB sampleOrderCreated true false false
        = (Except.error (SvcError.coded ErrCode.DatabaseError
            "failed to create payment"), dupPaymentDB) :=
  ⟨rfl, C6_duplicate_insert_behavior dupPaymentDB sampleOrderCreated rfl⟩

end Saga
